import Mathlib

/-
Verification of the UESTC-SDK core against its specification.

The development shallowly embeds the `Application` facade of
`src/application.ts` and the `Encoder` helper.  The facade's collaborators
(`Fetcher`, `Seeker`, `User#confirm`) are external to the sources; where the
specification describes them, they are modelled from the specification's
words and marked as such.  Observables are embedded by their synchronously
determined outcome: each facade search call is a pure function of the
application state and of the outcome the external `Fetcher` produces for the
given option, returning the emitted result together with the number of times
each collaborator's search method was invoked during the call (JavaScript
evaluates every subexpression of the call eagerly, so these counts are
determined at call time).
-/

set_option autoImplicit false

namespace UestcSdk

/-- A user entity as created by `userFactory.$new(id, password)` /
`new User(id, password)`: a student id together with a password. -/
structure User where
  id : String
  password : String
deriving DecidableEq, Repr

/-- An exception as created by `exceptionFactory.$new(code, message)`. -/
structure Exception where
  code : Nat
  message : String
deriving DecidableEq, Repr

/-- A course record.  Its fields are irrelevant to the facade's control flow;
search options are embedded as predicates over it. -/
structure Course where
  name : String
deriving DecidableEq, Repr

/-- A person record, analogous to `Course`. -/
structure Person where
  name : String
deriving DecidableEq, Repr

instance {ε α : Type} [DecidableEq ε] [DecidableEq α] : DecidableEq (Except ε α) := by
  intro x y
  cases x <;> cases y
  case error.error e f =>
    exact if h : e = f then .isTrue (by rw [h]) else .isFalse (by intro hc; cases hc; exact h rfl)
  case error.ok e a => exact .isFalse (by intro hc; cases hc)
  case ok.error a e => exact .isFalse (by intro hc; cases hc)
  case ok.ok a b =>
    exact if h : a = b then .isTrue (by rw [h]) else .isFalse (by intro hc; cases hc; exact h rfl)

/-- The state the `Application` facade closes over: the `Cacher`'s stores
(`cacher.users`, plus the cached course and person collections the `Seeker`
reads) and the facade's `currentUser` field. -/
structure AppState where
  users : List (String × User)
  courses : List Course
  people : List Person
  currentUser : Option User
deriving Repr

/-- `Application#isUserExist`: `!!this.currentUser`. -/
def isUserExist (s : AppState) : Bool :=
  s.currentUser.isSome

/-- JavaScript map read `cacher.users[id]`: the first (and, under the
assignment discipline of `setUser`, only) entry stored under the key. -/
def lookupUser : List (String × User) → String → Option User
  | [], _ => none
  | (k, v) :: t, id => if k = id then some v else lookupUser t id

/-- JavaScript map assignment `cacher.users[id] = user`: overwrite the entry
under the key if present, append it otherwise. -/
def setUser : List (String × User) → String → User → List (String × User)
  | [], id, u => [(id, u)]
  | (k, v) :: t, id, u => if k = id then (id, u) :: t else (k, v) :: setUser t id u

/-- `Application#one`: `cacher.users[id] || null`. -/
def one (s : AppState) (id : String) : Option User :=
  lookupUser s.users id

/-- `Application#register`: stores a freshly created user under the id
(overwriting any prior entry) and returns it.  The
`user.confirm().subscribe(() => this.currentUser = user)` assignment runs
asynchronously when the confirmation stream resolves, so it is not part of
the synchronous state transition embedded here. -/
def register (s : AppState) (id password : String) : User × AppState :=
  let user : User := ⟨id, password⟩
  (user, { s with users := setUser s.users id user })

/-- `Application#verify`: constructs a fresh `User` from the credentials and
returns the outcome of its `confirm()` call (an external collaborator,
passed in as a function).  No statement of the method writes to
`cacher.users` or to `currentUser`, so the state comes back unchanged. -/
def verify (s : AppState) (id password : String)
    (confirm : User → Except Exception Bool) :
    Except Exception Bool × AppState :=
  let user : User := ⟨id, password⟩
  (confirm user, s)

/-- Modelled from the spec: the `Seeker`'s offline course search
(`Seeker#searchForCourses`; the `Seeker` class is not among the sources)
filters the courses held in the `RecordCache` with the option's predicate,
in cache order, with no network access and no side effects. -/
def seekerSearchForCourses (cache : List Course) (opt : Course → Bool) : List Course :=
  cache.filter opt

/-- Modelled from the spec: the `Seeker`'s offline people search
(`Seeker#searchForPeople` is not among the sources), analogous to
`seekerSearchForCourses`. -/
def seekerSearchForPeople (cache : List Person) (opt : Person → Bool) : List Person :=
  cache.filter opt

/-- Outcome of one facade search call: the result the returned observable
emits, plus how many times the `Fetcher`'s and the `Seeker`'s search methods
were invoked during the call. -/
structure SearchOutcome (α : Type) where
  result : Except Exception (List α)
  fetcherCalls : Nat
  seekerCalls : Nat
deriving Repr

/-- `Application#searchForCourses`: builds
`Observable.create(precondition).merge(fetcher.searchForCourses(option))`.
`fetcher.searchForCourses(option)` is evaluated once while the merged
observable is constructed, unconditionally.  On subscription the
precondition observer errors with the 401 exception when no current user
exists; otherwise the merged stream carries the fetcher's outcome, embedded
here as the argument `fetch`. -/
def searchForCourses (s : AppState) (fetch : Except Exception (List Course)) :
    SearchOutcome Course where
  result :=
    if isUserExist s then fetch
    else .error ⟨401, "Application#searchForCourses must be called with a current user."⟩
  fetcherCalls := 1
  seekerCalls := 0

/-- `Application#searchForCoursesInCache`: returns
`seeker.searchForCourses(option)`, one seeker invocation, no fetcher. -/
def searchForCoursesInCache (s : AppState) (opt : Course → Bool) :
    SearchOutcome Course where
  result := .ok (seekerSearchForCourses s.courses opt)
  fetcherCalls := 0
  seekerCalls := 1

/-- `Application#searchForCoursesWithCache`:
`this.searchForCourses(option).catch(this.searchForCoursesInCache(option))`.
Both method calls are evaluated when the expression is built (JavaScript
eager argument evaluation), so their collaborator invocations add up
regardless of the live outcome; `catch` replaces an errored live stream by
the cache stream's outcome. -/
def searchForCoursesWithCache (s : AppState) (fetch : Except Exception (List Course))
    (opt : Course → Bool) : SearchOutcome Course :=
  let live := searchForCourses s fetch
  let fallback := searchForCoursesInCache s opt
  { result :=
      match live.result with
      | .ok cs => .ok cs
      | .error _ => fallback.result
    fetcherCalls := live.fetcherCalls + fallback.fetcherCalls
    seekerCalls := live.seekerCalls + fallback.seekerCalls }

/-- `Application#searchForPeople`, structured exactly as
`searchForCourses` with the people fetcher and the 401 message of the
people variant. -/
def searchForPeople (s : AppState) (fetch : Except Exception (List Person)) :
    SearchOutcome Person where
  result :=
    if isUserExist s then fetch
    else .error ⟨401, "Application#searchForPeople must be called with a current user."⟩
  fetcherCalls := 1
  seekerCalls := 0

/-- `Application#searchForPeopleInCache`: returns
`seeker.searchForPeople(option)`. -/
def searchForPeopleInCache (s : AppState) (opt : Person → Bool) :
    SearchOutcome Person where
  result := .ok (seekerSearchForPeople s.people opt)
  fetcherCalls := 0
  seekerCalls := 1

/-- `Application#searchForPeopleWithCache`:
`this.searchForPeople(option).catch(this.searchForPeopleInCache(option))`. -/
def searchForPeopleWithCache (s : AppState) (fetch : Except Exception (List Person))
    (opt : Person → Bool) : SearchOutcome Person :=
  let live := searchForPeople s fetch
  let fallback := searchForPeopleInCache s opt
  { result :=
      match live.result with
      | .ok ps => .ok ps
      | .error _ => fallback.result
    fetcherCalls := live.fetcherCalls + fallback.fetcherCalls
    seekerCalls := live.seekerCalls + fallback.seekerCalls }

/-- An application state with nothing cached and no confirmed identity. -/
def emptyState : AppState :=
  { users := [], courses := [], people := [], currentUser := none }

namespace Encoder

/-- Failures of the `Encoder`'s parsing functions, as named by the spec. -/
inductive EncoderError where
  | UnknownLabel
  | MalformedSemesterString
deriving DecidableEq, Repr

/-- Modelled from the spec: the institution's baseline year for semester
identifiers, fixed so that the fixture (grade year 2012, semester 1,
cardinality 2 ↦ id 13) holds: `(2012 - 2006) * 2 + 1 = 13`.  The `Encoder`
implementation is not among the sources; only its test suite is. -/
def baselineYear : Int := 2006

/-- Modelled from the spec: the institution's semester cardinality (number
of semesters per academic year); the fixture implies 2. -/
def semesterCardinality : Int := 2

/-- The slice of a user the `Encoder` reads: `userLike.getGrade()`, the
entry year of the student's program. -/
structure UserLike where
  grade : Int
deriving DecidableEq, Repr

/-- Value of a digit sequence, most significant digit first. -/
def natOfDigits (l : List Char) : Nat :=
  l.foldl (fun a c => a * 10 + (c.toNat - 48)) 0

/-- A digit sequence parsed to a number: `some` only when the sequence is
non-empty and all its characters are decimal digits. -/
def parseNatDigits (l : List Char) : Option Nat :=
  if l ≠ [] ∧ l.all Char.isDigit then some (natOfDigits l) else none

/-- Modelled from the spec: a user's grade year is derived from the student
id; the fixture (`"2012019050020"` ↦ grade year 2012) pins it to the leading
four digits. -/
def userLikeOfId (id : String) : UserLike :=
  ⟨Int.ofNat (natOfDigits (id.data.take 4))⟩

/-- Modelled from the spec: `Encoder.getSemester`.  A first argument that
already looks like a calendar year (≥ 1000) is absolute; a small one is the
offset from the grade year, resolved as `grade + (x - 1)`.  The identifier
is `(resolvedYear - baselineYear) * semesterCardinality + semesterNumber`. -/
def getSemester (yearOrGradeRelative semesterNumber : Int) (u : UserLike) : Int :=
  let resolvedYear :=
    if 1000 ≤ yearOrGradeRelative then yearOrGradeRelative
    else u.grade + (yearOrGradeRelative - 1)
  (resolvedYear - baselineYear) * semesterCardinality + semesterNumber

/-- Modelled from the spec: `Encoder.getAllSemesters` produces the ascending
sequence of identifiers from the user's grade year through the present,
of length `(currentYear - gradeYear) * semesterCardinality`, starting at
`getSemester 1 1 u`.  The spec has it recomputed from the current date on
each call, so the current year is an explicit argument here. -/
def getAllSemesters (u : UserLike) (currentYear : Int) : List Int :=
  (List.range (((currentYear - u.grade) * semesterCardinality).toNat)).map
    (fun i => getSemester 1 1 u + Int.ofNat i)

/-- The weekday vocabulary, in index order. -/
def weekLabels : List String :=
  ["星期一", "星期二", "星期三", "星期四", "星期五", "星期六", "星期日"]

/-- Modelled from the spec: `Encoder.parseDayofWeek` is total over the fixed
7-label vocabulary and fails with `UnknownLabel` on any other input, with no
default value. -/
def parseDayofWeek (s : String) : Except EncoderError Nat :=
  if s = "星期一" then .ok 1
  else if s = "星期二" then .ok 2
  else if s = "星期三" then .ok 3
  else if s = "星期四" then .ok 4
  else if s = "星期五" then .ok 5
  else if s = "星期六" then .ok 6
  else if s = "星期日" then .ok 7
  else .error .UnknownLabel

/-- Splitting a character sequence at every occurrence of a separator, the
semantics of `text.split(sep)`: `"2013-2014"` at `'-'` gives the two parts
`"2013"` and `"2014"`, and a sequence without the separator is one part. -/
def splitOnChar (sep : Char) : List Char → List (List Char)
  | [] => [[]]
  | c :: rest =>
    match splitOnChar sep rest with
    | [] => if c = sep then [[], [c]] else [[c]]
    | part :: parts =>
      if c = sep then [] :: part :: parts else (c :: part) :: parts

/-- Modelled from the spec: `Encoder.parseSemester` parses
`"<startYear>-<endYear> <semesterNumber>"` into the integer triple
`(startYear, endYear, semesterNumber)` and fails with
`MalformedSemesterString` whenever the pattern does not match: non-numeric
parts, `endYear ≠ startYear + 1`, or a semester number outside the valid
cardinality range (1 to 2).  All-or-nothing, no partial parse. -/
def parseSemester (text : String) : Except EncoderError (Int × Int × Int) :=
  match splitOnChar ' ' text.data with
  | [yearsPart, semPart] =>
    match splitOnChar '-' yearsPart with
    | [startDigits, endDigits] =>
      match parseNatDigits startDigits, parseNatDigits endDigits, parseNatDigits semPart with
      | some a, some b, some n =>
        if b = a + 1 ∧ 1 ≤ n ∧ n ≤ 2 then
          .ok (Int.ofNat a, Int.ofNat b, Int.ofNat n)
        else .error .MalformedSemesterString
      | _, _, _ => .error .MalformedSemesterString
    | _ => .error .MalformedSemesterString
  | _ => .error .MalformedSemesterString

end Encoder

/-! Helper lemmas about the JavaScript-map embedding. -/

theorem lookupUser_setUser_self (l : List (String × User)) (id : String) (u : User) :
    lookupUser (setUser l id u) id = some u := by
  induction l with
  | nil => simp [setUser, lookupUser]
  | cons p t ih =>
    obtain ⟨k, v⟩ := p
    by_cases h : k = id
    · simp [setUser, h, lookupUser]
    · simp [setUser, h, lookupUser, ih]

theorem lookupUser_of_not_mem {l : List (String × User)} {id : String}
    (h : ∀ u : User, (id, u) ∉ l) : lookupUser l id = none := by
  induction l with
  | nil => rfl
  | cons p t ih =>
    obtain ⟨k, v⟩ := p
    have hk : k ≠ id := by
      intro he
      exact h v (by simp [he])
    simp only [lookupUser, if_neg hk]
    exact ih fun u hu => h u (List.mem_cons_of_mem _ hu)

/-! Helper lemmas about `parseDayofWeek`. -/

theorem parseDayofWeek_ok_mem {s : String} {n : Nat}
    (h : Encoder.parseDayofWeek s = .ok n) : s ∈ Encoder.weekLabels := by
  unfold Encoder.parseDayofWeek at h
  split_ifs at h <;> simp_all [Encoder.weekLabels]

theorem parseDayofWeek_of_not_mem {s : String} (h : s ∉ Encoder.weekLabels) :
    Encoder.parseDayofWeek s = .error .UnknownLabel := by
  unfold Encoder.parseDayofWeek
  split_ifs with h1 h2 h3 h4 h5 h6 h7 <;>
    first
      | rfl
      | (exfalso; exact h (by simp [Encoder.weekLabels, *]))

/-! Claim theorems. -/

/-- C1 (counterexample): calling a privileged search with no confirmed
identity does not produce zero Fetcher invocations.  In
`Application#searchForCourses` / `#searchForPeople` the expression
`fetcher.searchForCourses(option)` is evaluated while the merged observable
is built, before any precondition can act, so the fetcher's search method is
invoked exactly once even though `currentUser` is unset. -/
theorem c1_counterexample :
    emptyState.currentUser = none ∧
    (searchForCourses emptyState (Except.ok [])).fetcherCalls ≠ 0 ∧
    (searchForPeople emptyState (Except.ok [])).fetcherCalls ≠ 0 := by
  refine ⟨rfl, ?_, ?_⟩ <;> decide

/-- C1 (amended): for every privileged search invoked while no confirmed
identity is established, the emitted outcome is the 401 authorization error
(the error reaches the subscriber before any fetcher result can), but the
Fetcher's search method is nevertheless invoked exactly once at call time:
the precondition check does not short-circuit the fetcher invocation. -/
theorem c1_unauthorized_search (s : AppState) (h : s.currentUser = none)
    (fetchC : Except Exception (List Course)) (fetchP : Except Exception (List Person)) :
    (searchForCourses s fetchC).result =
      .error ⟨401, "Application#searchForCourses must be called with a current user."⟩ ∧
    (searchForCourses s fetchC).fetcherCalls = 1 ∧
    (searchForPeople s fetchP).result =
      .error ⟨401, "Application#searchForPeople must be called with a current user."⟩ ∧
    (searchForPeople s fetchP).fetcherCalls = 1 := by
  simp [searchForCourses, searchForPeople, isUserExist, h]

/-- C1 (witness): the amended claim at the empty application state. -/
theorem c1_unauthorized_search_witness :
    (searchForCourses emptyState (Except.ok [])).result =
      .error ⟨401, "Application#searchForCourses must be called with a current user."⟩ ∧
    (searchForCourses emptyState (Except.ok [])).fetcherCalls = 1 ∧
    (searchForPeople emptyState (Except.ok [])).result =
      .error ⟨401, "Application#searchForPeople must be called with a current user."⟩ ∧
    (searchForPeople emptyState (Except.ok [])).fetcherCalls = 1 :=
  c1_unauthorized_search emptyState rfl (Except.ok []) (Except.ok [])

/-- C2: whenever the live Fetcher attempt fails, the combined search
(`searchForCoursesWithCache` / `searchForPeopleWithCache`) resolves with
exactly the result the offline Seeker produces over the cached records for
the identical option — the very same predicate is applied on both paths. -/
theorem c2_fallback_equals_seeker (s : AppState) (e ep : Exception)
    (optC : Course → Bool) (optP : Person → Bool) :
    (searchForCoursesWithCache s (.error e) optC).result =
      .ok (seekerSearchForCourses s.courses optC) ∧
    (searchForPeopleWithCache s (.error ep) optP).result =
      .ok (seekerSearchForPeople s.people optP) := by
  constructor <;>
    · simp only [searchForCoursesWithCache, searchForPeopleWithCache, searchForCourses,
        searchForPeople, searchForCoursesInCache, searchForPeopleInCache]
      cases hs : isUserExist s <;> simp [hs]

/-- C7: the RecordCache put/get pair round-trips through the facade: after
`register(id, password)` — on any prior state, so in particular overwriting
any earlier entry under the same id — `one(id)` returns exactly the user
instance `register` created and returned, and for an id that was never
registered `one(id)` returns the null sentinel rather than failing. -/
theorem c7_register_one_roundtrip :
    (∀ (s : AppState) (id pw : String),
        (register s id pw).1 = ⟨id, pw⟩ ∧
        one (register s id pw).2 id = some (register s id pw).1) ∧
    (∀ (s : AppState) (id : String),
        (∀ u : User, (id, u) ∉ s.users) → one s id = none) := by
  constructor
  · intro s id pw
    exact ⟨rfl, by simp [one, register, lookupUser_setUser_self]⟩
  · intro s id h
    simpa [one] using lookupUser_of_not_mem h

/-- C7 (witness): registration round-trip and null sentinel at concrete
inputs: registering `"2012019050020"` on a state that already holds an entry
under that id, and reading a never-registered id from the empty state. -/
theorem c7_register_one_roundtrip_witness :
    ((register { emptyState with
        users := [("2012019050020", ⟨"2012019050020", "old"⟩)] }
        "2012019050020" "811073").1 = ⟨"2012019050020", "811073"⟩ ∧
      one (register { emptyState with
        users := [("2012019050020", ⟨"2012019050020", "old"⟩)] }
        "2012019050020" "811073").2 "2012019050020" =
        some (register { emptyState with
          users := [("2012019050020", ⟨"2012019050020", "old"⟩)] }
          "2012019050020" "811073").1) ∧
    one emptyState "2012019050020" = none :=
  ⟨c7_register_one_roundtrip.1 _ "2012019050020" "811073",
   c7_register_one_roundtrip.2 emptyState "2012019050020"
     (fun u hu => by cases hu)⟩

/-- C8: offline search is total and effect-free: for every state and option
it resolves with the Seeker's filtering of the cache (never an error), it
performs zero Fetcher invocations, and on an empty cache it resolves with
the empty sequence. -/
theorem c8_offline_search_total :
    (∀ (s : AppState) (optC : Course → Bool),
        (searchForCoursesInCache s optC).result =
          .ok (seekerSearchForCourses s.courses optC) ∧
        (searchForCoursesInCache s optC).fetcherCalls = 0) ∧
    (∀ (s : AppState) (optP : Person → Bool),
        (searchForPeopleInCache s optP).result =
          .ok (seekerSearchForPeople s.people optP) ∧
        (searchForPeopleInCache s optP).fetcherCalls = 0) ∧
    (∀ (s : AppState) (optC : Course → Bool), s.courses = [] →
        (searchForCoursesInCache s optC).result = .ok []) ∧
    (∀ (s : AppState) (optP : Person → Bool), s.people = [] →
        (searchForPeopleInCache s optP).result = .ok []) := by
  refine ⟨fun s o => ⟨rfl, rfl⟩, fun s o => ⟨rfl, rfl⟩, ?_, ?_⟩ <;>
    · intro s o h
      simp [searchForCoursesInCache, searchForPeopleInCache,
        seekerSearchForCourses, seekerSearchForPeople, h]

/-- C8 (witness): on the empty state both offline searches resolve with the
empty sequence. -/
theorem c8_offline_search_total_witness :
    (searchForCoursesInCache emptyState (fun _ => true)).result = .ok [] ∧
    (searchForPeopleInCache emptyState (fun _ => true)).result = .ok [] :=
  ⟨c8_offline_search_total.2.2.1 emptyState (fun _ => true) rfl,
   c8_offline_search_total.2.2.2 emptyState (fun _ => true) rfl⟩

/-- C9: in both combined searches the offline Seeker is invoked exactly once
at call time, unconditionally — `this.search...InCache(option)` is evaluated
eagerly as the argument of `catch` — so the Seeker runs against the cache
for every state and every live outcome, including a successful fetch. -/
theorem c9_seeker_invoked_unconditionally (s : AppState)
    (fetchC : Except Exception (List Course)) (fetchP : Except Exception (List Person))
    (optC : Course → Bool) (optP : Person → Bool) :
    (searchForCoursesWithCache s fetchC optC).seekerCalls = 1 ∧
    (searchForPeopleWithCache s fetchP optP).seekerCalls = 1 :=
  ⟨rfl, rfl⟩

/-- C10: `verify(id, password)` builds a fresh `User` from the credentials,
returns the outcome of its `confirm()` call, and leaves the application
state — the record cache and `currentUser` alike — completely unchanged,
whatever the confirmation outcome is. -/
theorem c10_verify_no_state_change (s : AppState) (id pw : String)
    (confirm : User → Except Exception Bool) :
    (verify s id pw confirm).1 = confirm ⟨id, pw⟩ ∧
    (verify s id pw confirm).2 = s ∧
    (verify s id pw confirm).2.users = s.users ∧
    (verify s id pw confirm).2.currentUser = s.currentUser :=
  ⟨rfl, rfl, rfl, rfl⟩

/-- C3: for every user and every valid (grade-relative offset,
semester-number) pair, `getSemester` with the relative offset returns the
same identifier as `getSemester` with the equivalent absolute year
`grade + offset - 1`; in particular, for a user with grade 2012,
`getSemester 2012 1 = getSemester 1 1 = 13`. -/
theorem c3_getSemester_relative_absolute :
    (∀ (u : Encoder.UserLike) (rel n : Int), 1 ≤ rel → rel < 1000 → 1000 ≤ u.grade →
        Encoder.getSemester rel n u = Encoder.getSemester (u.grade + rel - 1) n u) ∧
    Encoder.getSemester 2012 1 ⟨2012⟩ = 13 ∧
    Encoder.getSemester 1 1 ⟨2012⟩ = 13 := by
  refine ⟨?_, by decide, by decide⟩
  intro u rel n h1 h2 h3
  unfold Encoder.getSemester
  rw [if_neg (by omega), if_pos (by omega)]
  ring

/-- C3 (witness): the relative/absolute agreement at offset 1, semester 1,
for a user with grade 2012. -/
theorem c3_getSemester_relative_absolute_witness :
    Encoder.getSemester 1 1 ⟨2012⟩ =
      Encoder.getSemester ((2012 : Int) + 1 - 1) 1 ⟨2012⟩ :=
  c3_getSemester_relative_absolute.1 ⟨2012⟩ 1 1 (by decide) (by decide) (by decide)

/-- C4: `getAllSemesters` always has length
`(currentYear - gradeYear) * semesterCardinality` — a non-negative multiple
of the cardinality — and, whenever it is non-empty, its first element is
`getSemester 1 1 u`; for the fixture user `"2012019050020"` (grade year
2012) in the fixture's current year 2016, the length is 8 and the first
element is 13. -/
theorem c4_getAllSemesters_shape :
    (∀ (u : Encoder.UserLike) (cy : Int),
        (Encoder.getAllSemesters u cy).length =
          ((cy - u.grade) * Encoder.semesterCardinality).toNat ∧
        (Encoder.getAllSemesters u cy).length % 2 = 0 ∧
        (u.grade < cy →
          (Encoder.getAllSemesters u cy).head? = some (Encoder.getSemester 1 1 u))) ∧
    (Encoder.getAllSemesters (Encoder.userLikeOfId "2012019050020") 2016).length = 8 ∧
    (Encoder.getAllSemesters (Encoder.userLikeOfId "2012019050020") 2016).head? =
      some 13 := by
  refine ⟨?_, by decide, by decide⟩
  intro u cy
  refine ⟨by simp [Encoder.getAllSemesters], ?_, ?_⟩
  · simp only [Encoder.getAllSemesters, List.length_map, List.length_range]
    unfold Encoder.semesterCardinality
    omega
  · intro hlt
    obtain ⟨m, hm⟩ : ∃ m, ((cy - u.grade) * Encoder.semesterCardinality).toNat = m + 1 := by
      refine ⟨((cy - u.grade) * Encoder.semesterCardinality).toNat - 1, ?_⟩
      unfold Encoder.semesterCardinality
      omega
    simp [Encoder.getAllSemesters, hm, List.range_succ_eq_map]

/-- C4 (witness): the shape facts at the fixture user and year, with the
non-emptiness hypothesis discharged at 2012 < 2016. -/
theorem c4_getAllSemesters_shape_witness :
    (Encoder.getAllSemesters ⟨2012⟩ 2016).head? = some (Encoder.getSemester 1 1 ⟨2012⟩) :=
  (c4_getAllSemesters_shape.1 ⟨2012⟩ 2016).2.2 (by decide)

/-- C5: `parseDayofWeek` maps the i-th of the 7 weekday labels to i + 1, is
injective (one distinct index per label), and fails with `UnknownLabel` on
every string outside the vocabulary instead of returning a default. -/
theorem c5_parseDayofWeek_total_injective :
    (∀ i : Fin 7,
        Encoder.parseDayofWeek (Encoder.weekLabels.getD i.val "") = .ok (i.val + 1)) ∧
    (∀ (s t : String) (n : Nat),
        Encoder.parseDayofWeek s = .ok n → Encoder.parseDayofWeek t = .ok n → s = t) ∧
    (∀ s : String, s ∉ Encoder.weekLabels →
        Encoder.parseDayofWeek s = .error .UnknownLabel) := by
  refine ⟨by decide, ?_, fun s h => parseDayofWeek_of_not_mem h⟩
  intro s t n hs ht
  have hsm := parseDayofWeek_ok_mem hs
  have htm := parseDayofWeek_ok_mem ht
  have key : ∀ x ∈ Encoder.weekLabels, ∀ y ∈ Encoder.weekLabels,
      Encoder.parseDayofWeek x = Encoder.parseDayofWeek y → x = y := by decide
  exact key s hsm t htm (by rw [hs, ht])

/-- C5 (witness): injectivity applied at the Monday label on both sides, and
failure on the out-of-vocabulary input `"abc"`. -/
theorem c5_parseDayofWeek_witness :
    "星期一" = "星期一" ∧
    Encoder.parseDayofWeek "abc" = .error .UnknownLabel :=
  ⟨c5_parseDayofWeek_total_injective.2.1 "星期一" "星期一" 1 (by decide) (by decide),
   c5_parseDayofWeek_total_injective.2.2 "abc" (by decide)⟩

/-- C6: `parseSemester` maps `"2013-2014 2"` to `(2013, 2014, 2)`, fails
with `MalformedSemesterString` on `"abc"` (non-numeric), `"2013-2015 2"`
(non-adjacent years) and `"2013-2014 3"` (semester number out of the
cardinality range), and admits no partial parse: every successful result
satisfies `endYear = startYear + 1` and `1 ≤ semesterNumber ≤ 2`. -/
theorem c6_parseSemester_all_or_nothing :
    Encoder.parseSemester "2013-2014 2" = .ok (2013, 2014, 2) ∧
    Encoder.parseSemester "abc" = .error .MalformedSemesterString ∧
    Encoder.parseSemester "2013-2015 2" = .error .MalformedSemesterString ∧
    Encoder.parseSemester "2013-2014 3" = .error .MalformedSemesterString ∧
    (∀ (t : String) (a b n : Int), Encoder.parseSemester t = .ok (a, b, n) →
        b = a + 1 ∧ 1 ≤ n ∧ n ≤ 2) := by
  refine ⟨by decide, by decide, by decide, by decide, ?_⟩
  intro t a b n h
  unfold Encoder.parseSemester at h
  split at h
  · split at h
    · split at h
      · split_ifs at h with hc
        injection h with h1
        cases h1
        simp only [Int.ofNat_eq_natCast]
        omega
      · cases h
    · cases h
  · cases h

/-- C6 (witness): the no-partial-parse guarantee applied at the well-formed
fixture string. -/
theorem c6_parseSemester_witness :
    (2014 : Int) = 2013 + 1 ∧ (1 : Int) ≤ 2 ∧ (2 : Int) ≤ 2 :=
  c6_parseSemester_all_or_nothing.2.2.2.2 "2013-2014 2" 2013 2014 2 (by decide)

end UestcSdk
